import Mathlib

/-!
Shallow embedding of the caching and rate-limiting core of the
go-briefly-bot repository, together with proofs settling the claims of
its design specification.

Embedded modules:
* `src/utils/compression.py` — the self-describing compression codec;
* `src/cache/base.py` — the abstract cache-provider interface and its
  shared text/dict encode/decode helpers;
* `src/cache/in_memory.py` — the in-process backend;
* `src/cache/local.py` — the `LocalCacheProvider` used as the fail-soft
  fallback of the Valkey backend;
* `src/cache/valkey.py` — the Valkey-backed provider and its
  `_safe_execute` fail-soft wrapper;
* `src/cache/factory.py` and `src/config.py` — provider selection.

Modelling conventions: Python byte strings are `List Nat` (one entry per
byte), Python `str` is Lean `String`, Python dicts cached by the layer are
`PyDict`, and `time.monotonic()` instants as well as TTL windows are
integers `ℤ` in an arbitrarily fine time unit — the code only compares,
adds and subtracts timestamps, so only the ordered additive structure
matters.  The Python standard-library primitives the repository
calls (gzip/zlib/lzma, UTF-8 encode/decode, json dumps/loads) are external
collaborators of the code under verification; they are passed in as a
`PyLibs` record of functions, with their documented lossless/round-trip
behaviour stated as explicit hypotheses where a claim needs it.
-/

namespace GoBriefly

/-! ## src/utils/compression.py -/

/-- `class CompressionMethod(Enum)` from src/utils/compression.py. -/
inductive CompressionMethod where
  | NONE
  | GZIP
  | ZLIB
  | LZMA
deriving DecidableEq, Repr

/-- The `.value` string of each `CompressionMethod` enum member. -/
def CompressionMethod.value : CompressionMethod → String
  | .NONE => "none"
  | .GZIP => "gzip"
  | .ZLIB => "zlib"
  | .LZMA => "lzma"

/-- Cached Python dict values (structured records with named fields).
The cache layer treats them opaquely; we model them as association lists
of string fields. -/
abbrev PyDict := List (String × String)

/-- The Python standard-library primitives called by the repository:
the three compressors with their inverses (inverses are partial — they
reject corrupted input), `str.encode("utf-8")` composed with its inverse,
and `json.dumps(...).encode("utf-8")` composed with its inverse.  These
are external to the repository; the embedding is parameterised by them. -/
structure PyLibs where
  gzipCompress : List Nat → List Nat
  gzipDecompress : List Nat → Option (List Nat)
  zlibCompress : List Nat → List Nat
  zlibDecompress : List Nat → Option (List Nat)
  lzmaCompress : List Nat → List Nat
  lzmaDecompress : List Nat → Option (List Nat)
  utf8Encode : String → List Nat
  utf8Decode : List Nat → Option String
  jsonEncode : PyDict → List Nat
  jsonDecode : List Nat → Option PyDict

/-- The documented behaviour of the stdlib codecs: each decompressor is a
left inverse of its compressor (gzip/zlib/lzma are lossless). -/
def PyLibs.LosslessCodecs (L : PyLibs) : Prop :=
  (∀ s, L.gzipDecompress (L.gzipCompress s) = some s) ∧
  (∀ s, L.zlibDecompress (L.zlibCompress s) = some s) ∧
  (∀ s, L.lzmaDecompress (L.lzmaCompress s) = some s)

/-- The documented behaviour of UTF-8: decoding inverts encoding. -/
def PyLibs.FaithfulText (L : PyLibs) : Prop :=
  ∀ s, L.utf8Decode (L.utf8Encode s) = some s

/-- The documented behaviour of json: `json.loads` inverts `json.dumps`. -/
def PyLibs.FaithfulDict (L : PyLibs) : Prop :=
  ∀ d, L.jsonDecode (L.jsonEncode d) = some d

/-- `CompressionError` from src/utils/compression.py, split by raise
site inside `decompress` (the spec names these `UnknownMethod` and
`CorruptPayload`). -/
inductive CompressionError where
  | UnknownMethod
  | CorruptPayload
deriving DecidableEq, Repr

/-- `COMPRESSION_PREFIXES`: the one-byte tag stored in front of the
compressed data. -/
def COMPRESSION_PREFIXES : CompressionMethod → List Nat
  | .NONE => [0]
  | .GZIP => [1]
  | .ZLIB => [2]
  | .LZMA => [3]

/-- `PREFIX_TO_METHOD`: reverse mapping used by `decompress`. -/
def PREFIX_TO_METHOD : Nat → Option CompressionMethod
  | 0 => some .NONE
  | 1 => some .GZIP
  | 2 => some .ZLIB
  | 3 => some .LZMA
  | _ => Option.none

/-- `compress(data, method)` from src/utils/compression.py: prepend the
method tag; for `NONE` return the input unchanged, otherwise apply the
matching stdlib compressor. -/
def compress (L : PyLibs) (data : List Nat) (method : CompressionMethod) : List Nat :=
  match method with
  | .NONE => COMPRESSION_PREFIXES .NONE ++ data
  | .GZIP => COMPRESSION_PREFIXES .GZIP ++ L.gzipCompress data
  | .ZLIB => COMPRESSION_PREFIXES .ZLIB ++ L.zlibCompress data
  | .LZMA => COMPRESSION_PREFIXES .LZMA ++ L.lzmaCompress data

/-- `decompress(data)` from src/utils/compression.py: empty input is
returned unchanged; otherwise dispatch on the first byte (unknown tag
raises `UnknownMethod`) and apply the matching stdlib decompressor
(whose rejection raises `CorruptPayload`). -/
def decompress (L : PyLibs) (data : List Nat) : Except CompressionError (List Nat) :=
  match data with
  | [] => .ok []
  | b :: payload =>
    match PREFIX_TO_METHOD b with
    | Option.none => .error .UnknownMethod
    | some .NONE => .ok payload
    | some .GZIP =>
      match L.gzipDecompress payload with
      | some r => .ok r
      | Option.none => .error .CorruptPayload
    | some .ZLIB =>
      match L.zlibDecompress payload with
      | some r => .ok r
      | Option.none => .error .CorruptPayload
    | some .LZMA =>
      match L.lzmaDecompress payload with
      | some r => .ok r
      | Option.none => .error .CorruptPayload

/-! Concrete instantiations of `PyLibs` used by the witnesses: `idLibs`
satisfies all the lossless laws (identity codecs, an invertible string
coding via `Char.toNat`, a dict coding via `Encodable`); `rejectLibs`
has decompressors that reject every payload. -/

/-- Injective coding of a string as the list of its character codes. -/
def strToNats (s : String) : List Nat := s.data.map Char.toNat

/-- Left inverse of `strToNats`. -/
def natsToStr (l : List Nat) : String := String.mk (l.map Char.ofNat)

/-- Injective coding of a `PyDict` as a single natural number. -/
def encodePyDict (d : PyDict) : Nat :=
  Encodable.encode (d.map (fun p => (strToNats p.1, strToNats p.2)))

/-- Left inverse of `encodePyDict`. -/
def decodePyDict (n : Nat) : Option PyDict :=
  (Encodable.decode (α := List (List Nat × List Nat)) n).map
    (List.map (fun p => (natsToStr p.1, natsToStr p.2)))

/-- A `PyLibs` whose codecs are identities and whose string/dict codings
are the invertible ones above; it satisfies every round-trip law. -/
def idLibs : PyLibs :=
  { gzipCompress := id
    gzipDecompress := some
    zlibCompress := id
    zlibDecompress := some
    lzmaCompress := id
    lzmaDecompress := some
    utf8Encode := strToNats
    utf8Decode := fun l => some (natsToStr l)
    jsonEncode := fun d => [encodePyDict d]
    jsonDecode := fun l =>
      match l with
      | [n] => decodePyDict n
      | _ => Option.none }

/-- A `PyLibs` whose decompressors reject every payload (models a
library call failing on corrupted input). -/
def rejectLibs : PyLibs :=
  { gzipCompress := id
    gzipDecompress := fun _ => Option.none
    zlibCompress := id
    zlibDecompress := fun _ => Option.none
    lzmaCompress := id
    lzmaDecompress := fun _ => Option.none
    utf8Encode := strToNats
    utf8Decode := fun l => some (natsToStr l)
    jsonEncode := fun d => [encodePyDict d]
    jsonDecode := fun l =>
      match l with
      | [n] => decodePyDict n
      | _ => Option.none }

/-! ## src/cache/base.py — shared helpers of `CacheProvider` -/

namespace CacheProvider

/-- `CacheProvider._encode_text`: UTF-8 encode then compress with the
configured method. -/
def _encode_text (L : PyLibs) (m : CompressionMethod) (text : String) : List Nat :=
  compress L (L.utf8Encode text) m

/-- `CacheProvider._decode_text`: decompress then UTF-8 decode; any
failure is caught (`except Exception`), logged and turned into `None`. -/
def _decode_text (L : PyLibs) (data : List Nat) : Option String :=
  match decompress L data with
  | .ok bs => L.utf8Decode bs
  | .error _ => Option.none

/-- `CacheProvider._encode_dict`: `json.dumps`, UTF-8 encode, compress. -/
def _encode_dict (L : PyLibs) (m : CompressionMethod) (d : PyDict) : List Nat :=
  compress L (L.jsonEncode d) m

/-- `CacheProvider._decode_dict`: decompress then `json.loads`; any
failure is caught, logged and turned into `None`. -/
def _decode_dict (L : PyLibs) (data : List Nat) : Option PyDict :=
  match decompress L data with
  | .ok bs => L.jsonDecode bs
  | .error _ => Option.none

/-- The abstract methods declared on `CacheProvider` in src/cache/base.py
(the Cache Provider Interface). -/
def abstractMethods : List String :=
  ["is_rate_limited", "put", "get", "get_dict", "put_dict"]

end CacheProvider

/-! ## src/cache/in_memory.py — `InMemoryCacheProvider` -/

/-- Mutable state of an `InMemoryCacheProvider`: `_rate_limits` (user id
to last accepted `time.monotonic()` instant), `_cache` and `_cache_dict`
(cache key to compressed bytes plus `expires_at`). -/
structure InMemoryState where
  rate_limits : Int → Option ℤ
  cache : String → Option (List Nat × ℤ)
  cache_dict : String → Option (List Nat × ℤ)

/-- The in-memory state with nothing stored. -/
def emptyInMemoryState : InMemoryState :=
  ⟨fun _ => Option.none, fun _ => Option.none, fun _ => Option.none⟩

/-- The cache key `f"{key}:{self._compression_method.value}"` used by
`InMemoryCacheProvider.get/put/get_dict/put_dict`. -/
def methodKey (m : CompressionMethod) (key : String) : String :=
  key ++ ":" ++ m.value

namespace InMemoryCacheProvider

/-- `InMemoryCacheProvider.is_rate_limited`, the body of the
`_rate_limit_lock` critical section, evaluated with `time.monotonic()`
equal to `now`: if a last request is stored and `now` is within the
window, report limited without mutating; otherwise store `now` and
report not limited. -/
def is_rate_limited (st : InMemoryState) (user_id : Int) (window_seconds now : ℤ) :
    Bool × InMemoryState :=
  match st.rate_limits user_id with
  | some last_request =>
    if now - last_request < window_seconds then (true, st)
    else
      (false,
        { st with rate_limits := fun u => if u = user_id then some now else st.rate_limits u })
  | Option.none =>
    (false,
      { st with rate_limits := fun u => if u = user_id then some now else st.rate_limits u })

/-- `InMemoryCacheProvider.get` at monotonic time `now`: expired entries
(`now > expires_at`) are popped and reported absent; live entries are
decoded with `_decode_text`. -/
def get (L : PyLibs) (m : CompressionMethod) (st : InMemoryState) (key : String) (now : ℤ) :
    Option String × InMemoryState :=
  match st.cache (methodKey m key) with
  | Option.none => (Option.none, st)
  | some (compressed, expires_at) =>
    if expires_at < now then
      (Option.none,
        { st with cache := fun k => if k = methodKey m key then Option.none else st.cache k })
    else (CacheProvider._decode_text L compressed, st)

/-- `InMemoryCacheProvider.put` at monotonic time `now`: stores the
encoded text with expiry `now + ttl_seconds`. -/
def put (L : PyLibs) (m : CompressionMethod) (st : InMemoryState) (key : String)
    (text : String) (ttl_seconds now : ℤ) : InMemoryState :=
  { st with
    cache := fun k =>
      if k = methodKey m key then some (CacheProvider._encode_text L m text, now + ttl_seconds)
      else st.cache k }

/-- `InMemoryCacheProvider.get_dict`, same shape as `get` over
`_cache_dict` with `_decode_dict`. -/
def get_dict (L : PyLibs) (m : CompressionMethod) (st : InMemoryState) (key : String) (now : ℤ) :
    Option PyDict × InMemoryState :=
  match st.cache_dict (methodKey m key) with
  | Option.none => (Option.none, st)
  | some (compressed, expires_at) =>
    if expires_at < now then
      (Option.none,
        { st with
          cache_dict := fun k => if k = methodKey m key then Option.none else st.cache_dict k })
    else (CacheProvider._decode_dict L compressed, st)

/-- `InMemoryCacheProvider.put_dict` at monotonic time `now`. -/
def put_dict (L : PyLibs) (m : CompressionMethod) (st : InMemoryState) (key : String)
    (data : PyDict) (ttl_seconds now : ℤ) : InMemoryState :=
  { st with
    cache_dict := fun k =>
      if k = methodKey m key then some (CacheProvider._encode_dict L m data, now + ttl_seconds)
      else st.cache_dict k }

/-- The methods defined in the `InMemoryCacheProvider` class body. -/
def methodNames : List String :=
  ["__init__", "is_rate_limited", "get", "put", "get_dict", "put_dict"]

end InMemoryCacheProvider

/-! ## src/cache/local.py — `LocalCacheProvider` (the Valkey fallback) -/

/-- Mutable state of a `LocalCacheProvider`: plain text and dict stores
(no compression, no per-method key suffix) plus the rate-limit map. -/
structure LocalState where
  rate_limits : Int → Option ℤ
  cache : String → Option (String × ℤ)
  cache_dict : String → Option (PyDict × ℤ)

/-- The local state with nothing stored. -/
def emptyLocalState : LocalState :=
  ⟨fun _ => Option.none, fun _ => Option.none, fun _ => Option.none⟩

namespace LocalCacheProvider

/-- `LocalCacheProvider.is_rate_limited`, identical logic to the
in-memory provider. -/
def is_rate_limited (st : LocalState) (user_id : Int) (window_seconds now : ℤ) :
    Bool × LocalState :=
  match st.rate_limits user_id with
  | some last_request =>
    if now - last_request < window_seconds then (true, st)
    else
      (false,
        { st with rate_limits := fun u => if u = user_id then some now else st.rate_limits u })
  | Option.none =>
    (false,
      { st with rate_limits := fun u => if u = user_id then some now else st.rate_limits u })

/-- `LocalCacheProvider.get` at monotonic time `now` (stores plain
text, lazily evicting expired entries). -/
def get (st : LocalState) (key : String) (now : ℤ) : Option String × LocalState :=
  match st.cache key with
  | Option.none => (Option.none, st)
  | some (text, expires_at) =>
    if expires_at < now then
      (Option.none, { st with cache := fun k => if k = key then Option.none else st.cache k })
    else (some text, st)

/-- `LocalCacheProvider.put` at monotonic time `now`. -/
def put (st : LocalState) (key : String) (text : String) (ttl_seconds now : ℤ) : LocalState :=
  { st with
    cache := fun k => if k = key then some (text, now + ttl_seconds) else st.cache k }

/-- The methods defined in the `LocalCacheProvider` class body — note
that `get_summary`, `set_summary`, `get_transcript` and
`set_transcript` are absent. -/
def methodNames : List String :=
  ["__init__", "is_rate_limited", "get", "put", "get_dict", "put_dict"]

end LocalCacheProvider

/-! ## src/cache/valkey.py — `ValkeyProvider` -/

/-- Python exceptions that the embedding lets escape to the caller. -/
inductive PyError where
  | attributeError (cls attr : String)
  | typeError (msg : String)
deriving DecidableEq, Repr

/-- State of the rate-limit counters held by the Valkey server: key to
counter value and optional expiry instant.  A key whose expiry has
passed is treated as absent by every command. -/
structure ValkeyServerState where
  counters : String → Option (Nat × Option ℤ)

/-- The Valkey server state with no keys. -/
def emptyValkeyState : ValkeyServerState := ⟨fun _ => Option.none⟩

/-- The rate-limit key `f"user:{user_id}:limit"`. -/
def rateLimitKey (user_id : Int) : String := "user:" ++ toString user_id ++ ":limit"

/-- The pipelined `INCR key; EXPIRE key window_seconds nx=True` batch of
`ValkeyProvider.is_rate_limited`, executed atomically server-side at
time `now`: an absent or expired key increments from 0 (a fresh key
carries no TTL, so EXPIRE NX arms it to `now + window_seconds`); a live
key with a TTL keeps that TTL (NX).  Returns the INCR reply and the new
server state. -/
def valkeyIncrExpireNx (st : ValkeyServerState) (key : String) (window_seconds now : ℤ) :
    Nat × ValkeyServerState :=
  let alive : Option (Nat × Option ℤ) :=
    match st.counters key with
    | some (n, some e) => if e ≤ now then Option.none else some (n, some e)
    | some (n, Option.none) => some (n, Option.none)
    | Option.none => Option.none
  let count := (match alive with | some (n, _) => n | Option.none => 0) + 1
  let expiry : Option ℤ :=
    match alive with
    | some (_, some e) => some e
    | some (_, Option.none) => some (now + window_seconds)
    | Option.none => some (now + window_seconds)
  (count, ⟨fun k => if k = key then some (count, expiry) else st.counters k⟩)

/-- Outcome of one attempt against the Valkey backend, as classified by
the `except` clauses of `ValkeyProvider._safe_execute`: a result within
the 200ms deadline, a timeout, a connection-level error, or any other
exception raised while running the remote coroutine. -/
inductive RemoteOutcome (α : Type) where
  | ok (a : α)
  | timeout
  | connectionError
  | otherError
deriving DecidableEq, Repr

/-- `ValkeyProvider._safe_execute(coro_fn, fallback_coro_fn)`: a remote
success is returned directly; every failure class (TimeoutError,
ValkeyConnectionError/ConnectionError/OSError, and the catch-all
`except Exception`) is logged and answered by running the fallback —
whose own result, including any exception it raises, is what the
caller sees. -/
def ValkeyProvider._safe_execute {α : Type} (remote : RemoteOutcome α)
    (fallback : Except PyError α) : Except PyError α :=
  match remote with
  | .ok a => .ok a
  | .timeout => fallback
  | .connectionError => fallback
  | .otherError => fallback

namespace ValkeyProvider

/-- The remote body of `ValkeyProvider.is_rate_limited`: run the atomic
INCR/EXPIRE-NX batch and report limited iff the post-increment count
exceeds 1. -/
def is_rate_limited_remote (st : ValkeyServerState) (user_id : Int)
    (window_seconds now : ℤ) : Bool × ValkeyServerState :=
  let r := valkeyIncrExpireNx st (rateLimitKey user_id) window_seconds now
  (decide (r.1 > 1), r.2)

/-- `ValkeyProvider.is_rate_limited`: the remote attempt under
`_safe_execute`, with fallback
`self._local_fallback.is_rate_limited(user_id, window_seconds)` (which
`LocalCacheProvider` does define).  `net` is the network outcome of the
round trip (on success the pipeline runs against the server state
`vst`); `lst` is the fallback provider's state and `now` the monotonic
clock.  Returns the reported flag together with the server and
fallback states after the call. -/
def is_rate_limited (net : RemoteOutcome Unit) (vst : ValkeyServerState) (lst : LocalState)
    (user_id : Int) (window_seconds now : ℤ) :
    Except PyError (Bool × ValkeyServerState × LocalState) :=
  ValkeyProvider._safe_execute
    (match net with
     | .ok _ =>
       let r := is_rate_limited_remote vst user_id window_seconds now
       RemoteOutcome.ok (r.1, r.2, lst)
     | .timeout => .timeout
     | .connectionError => .connectionError
     | .otherError => .otherError)
    (let r := LocalCacheProvider.is_rate_limited lst user_id window_seconds now
     .ok (r.1, vst, r.2))

/-- The fallback lambda of `get_summary` evaluates
`self._local_fallback.get_summary`; `LocalCacheProvider` defines no
such attribute (see `LocalCacheProvider.methodNames`), so the lookup
raises `AttributeError` before any call can happen. -/
def local_fallback_get_summary : Except PyError (Option String) :=
  .error (.attributeError "LocalCacheProvider" "get_summary")

/-- `ValkeyProvider.get_summary`: the remote coroutine fetches the raw
value (`net` is its network outcome), and on a hit decompresses and
UTF-8 decodes it inside the coroutine — a `CompressionError` or
`UnicodeDecodeError` raised there is caught by the catch-all
`except Exception` of `_safe_execute`, which then runs the fallback
lambda. -/
def get_summary (L : PyLibs) (net : RemoteOutcome (Option (List Nat))) :
    Except PyError (Option String) :=
  ValkeyProvider._safe_execute
    (match net with
     | .ok Option.none => RemoteOutcome.ok Option.none
     | .ok (some v) =>
       match decompress L v with
       | .ok bs =>
         match L.utf8Decode bs with
         | some s => RemoteOutcome.ok (some s)
         | Option.none => RemoteOutcome.otherError
       | .error _ => RemoteOutcome.otherError
     | .timeout => .timeout
     | .connectionError => .connectionError
     | .otherError => .otherError)
    local_fallback_get_summary

/-- The methods defined in the `ValkeyProvider` class body in
src/cache/valkey.py — note that the abstract interface methods `put`,
`get`, `get_dict` and `put_dict` are absent. -/
def methodNames : List String :=
  ["__init__", "_parse_compression_method", "_get_client", "_safe_execute",
    "is_rate_limited", "get_summary", "set_summary", "get_transcript", "set_transcript"]

end ValkeyProvider

/-- Python ABC rule: the abstract interface methods of `CacheProvider`
that a class body leaves unimplemented. -/
def unimplementedAbstract (methods : List String) : List String :=
  CacheProvider.abstractMethods.filter (fun m => !(methods.contains m))

/-- Python ABC rule: a subclass of `CacheProvider` can be instantiated
iff it overrides every abstract method; otherwise the constructor
raises `TypeError`. -/
def instantiable (methods : List String) : Bool :=
  (unimplementedAbstract methods).isEmpty

/-! ## src/config.py and src/cache/factory.py -/

/-- The frozen dataclass `Settings` from src/config.py, with exactly the
fields it declares. -/
structure Settings where
  telegram_bot_token : String
  openai_base_url : String
  openai_api_key : String
  openai_model : String
  yt_dlp_additional_options : List String
  valkey_url : Option String
  cache_summary_ttl_seconds : Int
  cache_transcript_ttl_seconds : Int
  rate_limit_window_seconds : Int
  max_telegram_message_length : Int
  openai_timeout_seconds : Int
  openai_max_retries : Int

/-- The attribute names the `Settings` dataclass declares; reading any
other attribute on a `Settings` instance raises `AttributeError`. -/
def Settings.attrNames : List String :=
  ["telegram_bot_token", "openai_base_url", "openai_api_key", "openai_model",
    "yt_dlp_additional_options", "valkey_url", "cache_summary_ttl_seconds",
    "cache_transcript_ttl_seconds", "rate_limit_window_seconds",
    "max_telegram_message_length", "openai_timeout_seconds", "openai_max_retries"]

/-- Python truthiness of an optional string (`if settings.valkey_url:`):
`None` and the empty string are falsy. -/
def truthyStr : Option String → Bool
  | some s => !(s == "")
  | Option.none => false

/-- The provider `get_cache_provider` would construct. -/
inductive BuiltProvider where
  | inMemory
  | valkey (url : String)
deriving DecidableEq, Repr

/-- `get_cache_provider(settings)` from src/cache/factory.py on a fresh
process (`_state.current is None`): selects `ValkeyProvider` when
`settings.valkey_url` is truthy and `InMemoryCacheProvider` otherwise,
passing `compression_method=settings.cache_compression_method` in both
branches.  That keyword argument reads the attribute
`cache_compression_method` of `settings`, and a constructor call of a
class with unimplemented abstract methods raises `TypeError`. -/
def get_cache_provider (s : Settings) : Except PyError BuiltProvider :=
  if truthyStr s.valkey_url then
    if Settings.attrNames.contains "cache_compression_method" then
      if instantiable ValkeyProvider.methodNames then .ok (.valkey (s.valkey_url.getD ""))
      else .error (.typeError "cannot instantiate abstract class ValkeyProvider")
    else .error (.attributeError "Settings" "cache_compression_method")
  else
    if Settings.attrNames.contains "cache_compression_method" then
      if instantiable InMemoryCacheProvider.methodNames then .ok .inMemory
      else .error (.typeError "cannot instantiate abstract class InMemoryCacheProvider")
    else .error (.attributeError "Settings" "cache_compression_method")

/-! ## Serialized concurrent executions

Both rate limiters make each call one atomic step: the in-memory
provider runs its read-compare-write inside `_rate_limit_lock`, and the
Valkey provider runs INCR/EXPIRE-NX as one server-side transaction.  A
concurrent execution of N calls is therefore observationally equal to
some serialization, which `runRateCalls` replays: it threads the state
through the calls in their serialization order (each with the monotonic
timestamp it observed inside its critical section) and collects the
returned flags. -/

/-- Replay a serialized sequence of atomic rate-limit calls. -/
def runRateCalls {σ : Type} (step : σ → ℤ → Bool × σ) : σ → List ℤ → List Bool
  | _, [] => []
  | st, t :: ts => (step st t).1 :: runRateCalls step (step st t).2 ts

/-! Concrete states used by the witnesses. -/

/-- An in-memory state whose only content is a last accepted request of
user 5 at instant 0. -/
def witnessIMState : InMemoryState :=
  { emptyInMemoryState with rate_limits := fun u => if u = 5 then some 0 else Option.none }

/-- A Valkey server state whose only key is user 5's rate-limit counter
at 1, expiring at instant 10. -/
def witnessVKState : ValkeyServerState :=
  ⟨fun k => if k = rateLimitKey 5 then some (1, some 10) else Option.none⟩

/-- An in-memory state holding one live but malformed cached value for
key "k" (unknown compression prefix 255). -/
def malformedIMState : InMemoryState :=
  { emptyInMemoryState with
    cache := fun k => if k = methodKey .GZIP "k" then some ([255], 100) else Option.none }

/-! ## Support lemmas -/

theorem natsToStr_strToNats (s : String) : natsToStr (strToNats s) = s := by
  simp [natsToStr, strToNats, List.map_map, Function.comp_def, Char.ofNat_toNat]

theorem decodePyDict_encodePyDict (d : PyDict) : decodePyDict (encodePyDict d) = some d := by
  simp [decodePyDict, encodePyDict, Encodable.encodek, List.map_map, Function.comp_def,
    natsToStr_strToNats]

theorem idLibs_lossless : idLibs.LosslessCodecs :=
  ⟨fun _ => rfl, fun _ => rfl, fun _ => rfl⟩

theorem idLibs_faithfulText : idLibs.FaithfulText := by
  intro s
  simp [idLibs, PyLibs.FaithfulText, natsToStr_strToNats]

theorem idLibs_faithfulDict : idLibs.FaithfulDict := by
  intro d
  simp [idLibs, PyLibs.FaithfulDict, decodePyDict_encodePyDict]

/-- Codec round trip, shared by several claims below. -/
theorem decompress_compress (L : PyLibs) (h : L.LosslessCodecs) (m : CompressionMethod)
    (s : List Nat) : decompress L (compress L s m) = .ok s := by
  obtain ⟨hg, hz, hl⟩ := h
  cases m <;> simp [compress, decompress, COMPRESSION_PREFIXES, PREFIX_TO_METHOD, hg, hz, hl]

/-- `_decode_text` inverts `_encode_text` for every method. -/
theorem _decode_text_encode_text (L : PyLibs) (hc : L.LosslessCodecs) (ht : L.FaithfulText)
    (m : CompressionMethod) (text : String) :
    CacheProvider._decode_text L (CacheProvider._encode_text L m text) = some text := by
  unfold CacheProvider._decode_text CacheProvider._encode_text
  rw [decompress_compress L hc m]
  exact ht text

/-- `_decode_dict` inverts `_encode_dict` for every method. -/
theorem _decode_dict_encode_dict (L : PyLibs) (hc : L.LosslessCodecs) (hd : L.FaithfulDict)
    (m : CompressionMethod) (d : PyDict) :
    CacheProvider._decode_dict L (CacheProvider._encode_dict L m d) = some d := by
  unfold CacheProvider._decode_dict CacheProvider._encode_dict
  rw [decompress_compress L hc m]
  exact hd d

/-- After a user's window is open at `t0`, every further serialized call
within the window reports limited and keeps the in-memory state's
last-request entry at `t0`. -/
theorem runLocal_tail_true (uid : Int) (w t0 : ℤ) :
    ∀ (rest : List ℤ) (st : InMemoryState), st.rate_limits uid = some t0 →
      (∀ t ∈ rest, t - t0 < w) →
      runRateCalls (fun s t => InMemoryCacheProvider.is_rate_limited s uid w t) st rest =
        rest.map (fun _ => true) := by
  intro rest
  induction rest with
  | nil => intro st h1 h2; simp [runRateCalls]
  | cons t ts ih =>
    intro st h1 h2
    have hlt : t - t0 < w := h2 t (by simp)
    have hstep : InMemoryCacheProvider.is_rate_limited st uid w t = (true, st) := by
      simp [InMemoryCacheProvider.is_rate_limited, h1, hlt]
    have htail := ih st h1 (fun x hx => h2 x (List.mem_cons_of_mem _ hx))
    simp [runRateCalls, hstep, htail]

/-- After a user's counter key is live with value `n ≥ 1` and expiry
`t0 + w`, every further serialized call before the expiry reports
limited (INCR yields a count above 1, EXPIRE NX keeps the expiry). -/
theorem runValkey_tail_true (uid : Int) (w t0 : ℤ) :
    ∀ (rest : List ℤ) (st : ValkeyServerState) (n : Nat), 1 ≤ n →
      st.counters (rateLimitKey uid) = some (n, some (t0 + w)) →
      (∀ t ∈ rest, t < t0 + w) →
      runRateCalls (fun s t => ValkeyProvider.is_rate_limited_remote s uid w t) st rest =
        rest.map (fun _ => true) := by
  intro rest
  induction rest with
  | nil => intro st n hn h1 h2; simp [runRateCalls]
  | cons t ts ih =>
    intro st n hn h1 h2
    have hlt : t < t0 + w := h2 t (by simp)
    have hnot : ¬ (t0 + w ≤ t) := by omega
    have hstep : ValkeyProvider.is_rate_limited_remote st uid w t =
        (true,
          ⟨fun k => if k = rateLimitKey uid then some (n + 1, some (t0 + w))
                    else st.counters k⟩) := by
      simp [ValkeyProvider.is_rate_limited_remote, valkeyIncrExpireNx, h1, hnot]
      omega
    have htail := ih ⟨fun k => if k = rateLimitKey uid then some (n + 1, some (t0 + w))
        else st.counters k⟩ (n + 1) (by omega) (by simp)
      (fun x hx => h2 x (List.mem_cons_of_mem _ hx))
    simp [runRateCalls, hstep, htail]

/-! ## The claims -/

/-- Claim C6: for every method m in none/gzip/zlib/lzma and every byte
string s including the empty one, `decompress (compress s m) = s`;
`decompress` takes no method argument and dispatches solely on the
one-byte prefix of its input.  (Confirmed, given the documented
losslessness of the stdlib gzip/zlib/lzma codecs.) -/
theorem claim_C6 (L : PyLibs) (h : L.LosslessCodecs) (m : CompressionMethod)
    (s : List Nat) : decompress L (compress L s m) = .ok s :=
  decompress_compress L h m s

theorem claim_C6_witness :
    idLibs.LosslessCodecs ∧
      decompress idLibs (compress idLibs [104, 105] .GZIP) = .ok [104, 105] ∧
      decompress idLibs (compress idLibs [] .NONE) = .ok [] :=
  ⟨idLibs_lossless, claim_C6 idLibs idLibs_lossless .GZIP [104, 105],
    claim_C6 idLibs idLibs_lossless .NONE []⟩

/-- Claim C7: `decompress` fails with a `CompressionError` of kind
`UnknownMethod` on every input whose first byte is not a recognized
method tag, and of kind `CorruptPayload` on every payload under a
recognized tag that the dispatched stdlib decompressor rejects; in no
such case is a value silently returned. -/
theorem claim_C7 :
    (∀ (L : PyLibs) (b : Nat) (rest : List Nat), PREFIX_TO_METHOD b = Option.none →
      decompress L (b :: rest) = .error .UnknownMethod) ∧
    (∀ (L : PyLibs) (payload : List Nat),
      (L.gzipDecompress payload = Option.none →
        decompress L (1 :: payload) = .error .CorruptPayload) ∧
      (L.zlibDecompress payload = Option.none →
        decompress L (2 :: payload) = .error .CorruptPayload) ∧
      (L.lzmaDecompress payload = Option.none →
        decompress L (3 :: payload) = .error .CorruptPayload)) := by
  constructor
  · intro L b rest hb
    simp [decompress, hb]
  · intro L payload
    refine ⟨fun h => ?_, fun h => ?_, fun h => ?_⟩ <;>
      simp [decompress, PREFIX_TO_METHOD, h]

theorem claim_C7_witness :
    (PREFIX_TO_METHOD 9 = Option.none ∧
      decompress rejectLibs (9 :: [5]) = .error .UnknownMethod) ∧
    (rejectLibs.gzipDecompress [5] = Option.none ∧
      decompress rejectLibs (1 :: [5]) = .error .CorruptPayload) :=
  ⟨⟨rfl, claim_C7.1 rejectLibs 9 [5] rfl⟩, ⟨rfl, (claim_C7.2 rejectLibs [5]).1 rfl⟩⟩

/-- Claim C10: `decompress` applied to the empty byte sequence returns
the empty byte sequence without raising (`if not data: return data`),
although the input carries no method-tag byte at all. -/
theorem claim_C10 (L : PyLibs) : decompress L [] = .ok [] := rfl

/-- Claim C4: sequential sliding-window semantics, for both backends.
In-memory backend: a call issued within W of the stored last accepted
request reports limited and leaves the whole state unchanged; a call
issued W or more after it reports not limited and stores its own
timestamp.  Valkey backend (counter key live with count n ≥ 1 and
expiry `tA + w`, where `tA` is the last accepted request): a call
before the expiry reports limited and leaves the recorded window — the
key's expiry — unchanged (only the hit counter increments, which never
affects a later outcome); a call at or after the expiry finds the key
expired, reports not limited and re-arms the key with expiry
`now + w`, resetting the window start to its own timestamp. -/
theorem claim_C4 :
    (∀ (st : InMemoryState) (uid : Int) (w now last : ℤ),
      st.rate_limits uid = some last → now - last < w →
      InMemoryCacheProvider.is_rate_limited st uid w now = (true, st)) ∧
    (∀ (st : InMemoryState) (uid : Int) (w now last : ℤ),
      st.rate_limits uid = some last → w ≤ now - last →
      InMemoryCacheProvider.is_rate_limited st uid w now =
        (false,
          { st with rate_limits := fun u => if u = uid then some now else st.rate_limits u })) ∧
    (∀ (st : ValkeyServerState) (uid : Int) (w now tA : ℤ) (n : Nat), 1 ≤ n →
      st.counters (rateLimitKey uid) = some (n, some (tA + w)) → now - tA < w →
      ValkeyProvider.is_rate_limited_remote st uid w now =
        (true,
          ⟨fun k => if k = rateLimitKey uid then some (n + 1, some (tA + w))
                    else st.counters k⟩)) ∧
    (∀ (st : ValkeyServerState) (uid : Int) (w now tA : ℤ) (n : Nat),
      st.counters (rateLimitKey uid) = some (n, some (tA + w)) → w ≤ now - tA →
      ValkeyProvider.is_rate_limited_remote st uid w now =
        (false,
          ⟨fun k => if k = rateLimitKey uid then some (1, some (now + w))
                    else st.counters k⟩)) := by
  refine ⟨?_, ?_, ?_, ?_⟩
  · intro st uid w now last h1 h2
    simp [InMemoryCacheProvider.is_rate_limited, h1, h2]
  · intro st uid w now last h1 h2
    have h3 : ¬ (now - last < w) := by omega
    simp [InMemoryCacheProvider.is_rate_limited, h1, h3]
  · intro st uid w now tA n hn h1 h2
    have h3 : ¬ (tA + w ≤ now) := by omega
    simp [ValkeyProvider.is_rate_limited_remote, valkeyIncrExpireNx, h1, h3]
    omega
  · intro st uid w now tA n h1 h2
    have h3 : tA + w ≤ now := by omega
    simp [ValkeyProvider.is_rate_limited_remote, valkeyIncrExpireNx, h1, h3]

theorem claim_C4_witness :
    (witnessIMState.rate_limits 5 = some 0 ∧ (4:ℤ) - 0 < 10 ∧
      InMemoryCacheProvider.is_rate_limited witnessIMState 5 10 4 = (true, witnessIMState)) ∧
    ((10:ℤ) ≤ 12 - 0 ∧
      InMemoryCacheProvider.is_rate_limited witnessIMState 5 10 12 =
        (false,
          { witnessIMState with
            rate_limits := fun u => if u = 5 then some 12 else witnessIMState.rate_limits u })) ∧
    (witnessVKState.counters (rateLimitKey 5) = some (1, some (0 + 10)) ∧ (4:ℤ) - 0 < 10 ∧
      ValkeyProvider.is_rate_limited_remote witnessVKState 5 10 4 =
        (true,
          ⟨fun k => if k = rateLimitKey 5 then some (1 + 1, some (0 + 10))
                    else witnessVKState.counters k⟩)) ∧
    ((10:ℤ) ≤ 12 - 0 ∧
      ValkeyProvider.is_rate_limited_remote witnessVKState 5 10 12 =
        (false,
          ⟨fun k => if k = rateLimitKey 5 then some (1, some (12 + 10))
                    else witnessVKState.counters k⟩)) :=
  ⟨⟨rfl, by decide, claim_C4.1 witnessIMState 5 10 4 0 rfl (by decide)⟩,
    ⟨by decide, claim_C4.2.1 witnessIMState 5 10 12 0 rfl (by decide)⟩,
    ⟨rfl, by decide, claim_C4.2.2.1 witnessVKState 5 10 4 0 1 (by decide) rfl (by decide)⟩,
    ⟨by decide, claim_C4.2.2.2 witnessVKState 5 10 12 0 1 rfl (by decide)⟩⟩

/-- Claim C3: exactly-once admission for a fresh user.  Each call is
one atomic step (the in-memory read-compare-write runs inside
`_rate_limit_lock`; the Valkey INCR/EXPIRE-NX pair is one pipelined
server-side transaction), so a concurrent execution of N calls equals
some serialization, which `runRateCalls` replays.  For every
serialization of N calls for a fresh user whose timestamps all fall
inside the window opened by the first serialized call, the first call
reports not limited and the other N-1 report limited: exactly one
`false`, N-1 `true`, in both backends. -/
theorem claim_C3 :
    (∀ (st : InMemoryState) (uid : Int) (w t0 : ℤ) (rest : List ℤ),
      st.rate_limits uid = Option.none → (∀ t ∈ rest, t - t0 < w) →
      runRateCalls (fun s t => InMemoryCacheProvider.is_rate_limited s uid w t) st
        (t0 :: rest) = false :: rest.map (fun _ => true)) ∧
    (∀ (st : ValkeyServerState) (uid : Int) (w t0 : ℤ) (rest : List ℤ),
      st.counters (rateLimitKey uid) = Option.none → (∀ t ∈ rest, t < t0 + w) →
      runRateCalls (fun s t => ValkeyProvider.is_rate_limited_remote s uid w t) st
        (t0 :: rest) = false :: rest.map (fun _ => true)) := by
  constructor
  · intro st uid w t0 rest h0 hrest
    have hstep : InMemoryCacheProvider.is_rate_limited st uid w t0 =
        (false,
          { st with rate_limits := fun u => if u = uid then some t0 else st.rate_limits u }) := by
      simp [InMemoryCacheProvider.is_rate_limited, h0]
    have htail := runLocal_tail_true uid w t0 rest
      { st with rate_limits := fun u => if u = uid then some t0 else st.rate_limits u }
      (by simp) hrest
    simp [runRateCalls, hstep, htail]
  · intro st uid w t0 rest h0 hrest
    have hstep : ValkeyProvider.is_rate_limited_remote st uid w t0 =
        (false,
          ⟨fun k => if k = rateLimitKey uid then some (1, some (t0 + w))
                    else st.counters k⟩) := by
      simp [ValkeyProvider.is_rate_limited_remote, valkeyIncrExpireNx, h0]
    have htail := runValkey_tail_true uid w t0 rest
      ⟨fun k => if k = rateLimitKey uid then some (1, some (t0 + w)) else st.counters k⟩
      1 (by omega) (by simp) hrest
    simp [runRateCalls, hstep, htail]

theorem claim_C3_witness :
    (emptyInMemoryState.rate_limits 7 = Option.none ∧
      (∀ t ∈ [(1:ℤ), 2], t - 0 < 10) ∧
      runRateCalls (fun s t => InMemoryCacheProvider.is_rate_limited s 7 10 t)
        emptyInMemoryState [0, 1, 2] = [false, true, true]) ∧
    (emptyValkeyState.counters (rateLimitKey 7) = Option.none ∧
      (∀ t ∈ [(1:ℤ), 2], t < 0 + 10) ∧
      runRateCalls (fun s t => ValkeyProvider.is_rate_limited_remote s 7 10 t)
        emptyValkeyState [0, 1, 2] = [false, true, true]) :=
  ⟨⟨rfl, by decide, claim_C3.1 emptyInMemoryState 7 10 0 [1, 2] rfl (by decide)⟩,
    ⟨rfl, by decide, claim_C3.2 emptyValkeyState 7 10 0 [1, 2] rfl (by decide)⟩⟩

/-- Claim C5: TTL-correct lazy expiry for text and dict entries.  After
`put` at `tp` with TTL `ttl`: a `get` before the expiration instant
`tp + ttl` returns the stored value without touching the state; a `get`
after it returns absent and removes the entry; and a `get` of a key
that was never written returns absent with the state untouched — so an
expired read and a never-written read behave identically.  Stated for
the in-memory backend's `get`/`put` and `get_dict`/`put_dict` and for
the fallback `LocalCacheProvider.get`/`put`. -/
theorem claim_C5 :
    (∀ (L : PyLibs), L.LosslessCodecs → L.FaithfulText →
      ∀ (m : CompressionMethod) (st : InMemoryState) (key text : String) (ttl tp tg : ℤ),
        (tg < tp + ttl →
          InMemoryCacheProvider.get L m (InMemoryCacheProvider.put L m st key text ttl tp)
              key tg =
            (some text, InMemoryCacheProvider.put L m st key text ttl tp)) ∧
        (tp + ttl < tg →
          InMemoryCacheProvider.get L m (InMemoryCacheProvider.put L m st key text ttl tp)
              key tg =
            (Option.none,
              { InMemoryCacheProvider.put L m st key text ttl tp with
                cache := fun k =>
                  if k = methodKey m key then Option.none
                  else (InMemoryCacheProvider.put L m st key text ttl tp).cache k }))) ∧
    (∀ (L : PyLibs), L.LosslessCodecs → L.FaithfulDict →
      ∀ (m : CompressionMethod) (st : InMemoryState) (key : String) (d : PyDict)
        (ttl tp tg : ℤ),
        (tg < tp + ttl →
          InMemoryCacheProvider.get_dict L m
              (InMemoryCacheProvider.put_dict L m st key d ttl tp) key tg =
            (some d, InMemoryCacheProvider.put_dict L m st key d ttl tp)) ∧
        (tp + ttl < tg →
          InMemoryCacheProvider.get_dict L m
              (InMemoryCacheProvider.put_dict L m st key d ttl tp) key tg =
            (Option.none,
              { InMemoryCacheProvider.put_dict L m st key d ttl tp with
                cache_dict := fun k =>
                  if k = methodKey m key then Option.none
                  else (InMemoryCacheProvider.put_dict L m st key d ttl tp).cache_dict k }))) ∧
    (∀ (st : LocalState) (key text : String) (ttl tp tg : ℤ),
        (tg < tp + ttl →
          LocalCacheProvider.get (LocalCacheProvider.put st key text ttl tp) key tg =
            (some text, LocalCacheProvider.put st key text ttl tp)) ∧
        (tp + ttl < tg →
          LocalCacheProvider.get (LocalCacheProvider.put st key text ttl tp) key tg =
            (Option.none,
              { LocalCacheProvider.put st key text ttl tp with
                cache := fun k =>
                  if k = key then Option.none
                  else (LocalCacheProvider.put st key text ttl tp).cache k }))) ∧
    (∀ (L : PyLibs) (m : CompressionMethod) (st : InMemoryState) (key : String) (now : ℤ),
        st.cache (methodKey m key) = Option.none →
        InMemoryCacheProvider.get L m st key now = (Option.none, st)) := by
  refine ⟨?_, ?_, ?_, ?_⟩
  · intro L hc ht m st key text ttl tp tg
    constructor
    · intro h
      have h1 : ¬ (tp + ttl < tg) := by omega
      simp [InMemoryCacheProvider.get, InMemoryCacheProvider.put, h1,
        _decode_text_encode_text L hc ht m text]
    · intro h
      simp [InMemoryCacheProvider.get, InMemoryCacheProvider.put, h]
  · intro L hc hd m st key d ttl tp tg
    constructor
    · intro h
      have h1 : ¬ (tp + ttl < tg) := by omega
      simp [InMemoryCacheProvider.get_dict, InMemoryCacheProvider.put_dict, h1,
        _decode_dict_encode_dict L hc hd m d]
    · intro h
      simp [InMemoryCacheProvider.get_dict, InMemoryCacheProvider.put_dict, h]
  · intro st key text ttl tp tg
    constructor
    · intro h
      have h1 : ¬ (tp + ttl < tg) := by omega
      simp [LocalCacheProvider.get, LocalCacheProvider.put, h1]
    · intro h
      simp [LocalCacheProvider.get, LocalCacheProvider.put, h]
  · intro L m st key now h0
    simp [InMemoryCacheProvider.get, h0]

theorem claim_C5_witness :
    idLibs.LosslessCodecs ∧ idLibs.FaithfulText ∧ idLibs.FaithfulDict ∧
    ((5:ℤ) < 0 + 10) ∧ ((0:ℤ) + 10 < 11) ∧
    (InMemoryCacheProvider.get idLibs .GZIP
        (InMemoryCacheProvider.put idLibs .GZIP emptyInMemoryState "k" "v" 10 0) "k" 5 =
      (some "v", InMemoryCacheProvider.put idLibs .GZIP emptyInMemoryState "k" "v" 10 0)) ∧
    (InMemoryCacheProvider.get idLibs .GZIP
        (InMemoryCacheProvider.put idLibs .GZIP emptyInMemoryState "k" "v" 10 0) "k" 11 =
      (Option.none,
        { InMemoryCacheProvider.put idLibs .GZIP emptyInMemoryState "k" "v" 10 0 with
          cache := fun k =>
            if k = methodKey .GZIP "k" then Option.none
            else (InMemoryCacheProvider.put idLibs .GZIP emptyInMemoryState "k" "v" 10 0).cache
              k })) ∧
    (InMemoryCacheProvider.get_dict idLibs .ZLIB
        (InMemoryCacheProvider.put_dict idLibs .ZLIB emptyInMemoryState "t" [("a", "b")] 10 0)
        "t" 5 =
      (some [("a", "b")],
        InMemoryCacheProvider.put_dict idLibs .ZLIB emptyInMemoryState "t" [("a", "b")] 10 0)) ∧
    (LocalCacheProvider.get (LocalCacheProvider.put emptyLocalState "k" "v" 10 0) "k" 11 =
      (Option.none,
        { LocalCacheProvider.put emptyLocalState "k" "v" 10 0 with
          cache := fun k =>
            if k = "k" then Option.none
            else (LocalCacheProvider.put emptyLocalState "k" "v" 10 0).cache k })) ∧
    (emptyInMemoryState.cache (methodKey .GZIP "never") = Option.none ∧
      InMemoryCacheProvider.get idLibs .GZIP emptyInMemoryState "never" 3 =
        (Option.none, emptyInMemoryState)) :=
  ⟨idLibs_lossless, idLibs_faithfulText, idLibs_faithfulDict, by decide, by decide,
    (claim_C5.1 idLibs idLibs_lossless idLibs_faithfulText .GZIP emptyInMemoryState
        "k" "v" 10 0 5).1 (by decide),
    (claim_C5.1 idLibs idLibs_lossless idLibs_faithfulText .GZIP emptyInMemoryState
        "k" "v" 10 0 11).2 (by decide),
    (claim_C5.2.1 idLibs idLibs_lossless idLibs_faithfulDict .ZLIB emptyInMemoryState
        "t" [("a", "b")] 10 0 5).1 (by decide),
    (claim_C5.2.2.1 emptyLocalState "k" "v" 10 0 11).2 (by decide),
    ⟨rfl, claim_C5.2.2.2 idLibs .GZIP emptyInMemoryState "never" 3 rfl⟩⟩

/-- Claim C1, settled against the code: `_safe_execute` does absorb
every remote-failure class and runs the fallback — for
`is_rate_limited` the fallback is `LocalCacheProvider.is_rate_limited`,
which exists, so the Local result is returned and nothing is raised
(first conjunct).  But for `get_summary` (and its set/transcript
siblings) the fallback lambda evaluates
`self._local_fallback.get_summary`, an attribute `LocalCacheProvider`
does not define (second conjunct), so on any remote failure the
operation raises `AttributeError` to the caller instead of re-issuing
against Local (third conjunct).  The claim is therefore right about the
intended design (the class docstring promises a strict fail-soft
fallback to `LocalCacheProvider`) and the code is wrong. -/
theorem claim_C1 :
    (∀ (vst : ValkeyServerState) (lst : LocalState) (uid : Int) (w now : ℤ),
      ValkeyProvider.is_rate_limited .timeout vst lst uid w now =
        .ok ((LocalCacheProvider.is_rate_limited lst uid w now).1, vst,
          (LocalCacheProvider.is_rate_limited lst uid w now).2) ∧
      ValkeyProvider.is_rate_limited .connectionError vst lst uid w now =
        .ok ((LocalCacheProvider.is_rate_limited lst uid w now).1, vst,
          (LocalCacheProvider.is_rate_limited lst uid w now).2) ∧
      ValkeyProvider.is_rate_limited .otherError vst lst uid w now =
        .ok ((LocalCacheProvider.is_rate_limited lst uid w now).1, vst,
          (LocalCacheProvider.is_rate_limited lst uid w now).2)) ∧
    ("get_summary" ∉ LocalCacheProvider.methodNames) ∧
    (∀ (L : PyLibs),
      ValkeyProvider.get_summary L .timeout =
        .error (.attributeError "LocalCacheProvider" "get_summary") ∧
      ValkeyProvider.get_summary L .connectionError =
        .error (.attributeError "LocalCacheProvider" "get_summary") ∧
      ValkeyProvider.get_summary L .otherError =
        .error (.attributeError "LocalCacheProvider" "get_summary")) := by
  refine ⟨?_, by decide, ?_⟩
  · intro vst lst uid w now
    exact ⟨rfl, rfl, rfl⟩
  · intro L
    exact ⟨rfl, rfl, rfl⟩

/-- Claim C2, settled against the code: `ValkeyProvider` does not
implement the Cache Provider Interface of src/cache/base.py — it leaves
the abstract methods `put`, `get`, `get_dict` and `put_dict`
unimplemented (it still carries the older
`get_summary`/`set_summary`/`get_transcript`/`set_transcript` shape),
so under Python's ABC rules constructing a `ValkeyProvider` raises
`TypeError` and none of the interface operations is invocable on it.
`InMemoryCacheProvider`, by contrast, satisfies the interface.  The
repository's own tests construct `ValkeyProvider` and call
`put`/`get`/`put_dict`/`get_dict` on it, so the claim matches the
intent and the code is wrong. -/
theorem claim_C2 :
    instantiable ValkeyProvider.methodNames = false ∧
    unimplementedAbstract ValkeyProvider.methodNames = ["put", "get", "get_dict", "put_dict"] ∧
    instantiable InMemoryCacheProvider.methodNames = true := by
  refine ⟨rfl, by decide, rfl⟩

/-- Claim C8, settled against the code: the in-memory backend does
treat a malformed cached value as a miss (`_decode_text` catches the
decode failure and `get` returns `None` — first conjunct, evaluated on
a live entry whose stored bytes have the unknown prefix 255).  But the
Valkey backend does not: `get_summary` decompresses inside the remote
coroutine, a `CompressionError` there is caught by the catch-all of
`_safe_execute` and routed to the fallback lambda, and since
`LocalCacheProvider` defines no `get_summary` the read raises
`AttributeError` instead of returning absent (second and third
conjuncts).  The claim matches the spec's intent and the Valkey path of
the code is wrong. -/
theorem claim_C8 :
    (InMemoryCacheProvider.get idLibs .GZIP malformedIMState "k" 3 =
      (Option.none, malformedIMState)) ∧
    (decompress idLibs [255] = .error .UnknownMethod) ∧
    (ValkeyProvider.get_summary idLibs (.ok (some [255])) =
      .error (.attributeError "LocalCacheProvider" "get_summary")) :=
  ⟨rfl, rfl, rfl⟩

/-- Claim C9, settled against the code: `get_cache_provider` never
returns a provider — for every `Settings` value and both branches of
the `valkey_url` test, it reads `settings.cache_compression_method`, an
attribute the frozen `Settings` dataclass of src/config.py does not
declare, so the call raises `AttributeError` (and the Valkey branch
could not instantiate `ValkeyProvider` anyway, see `claim_C2`).  The
spec lists the compression method in the configuration surface and the
repository's tests set `cache_compression_method` on their settings
mocks, so the claim matches the intent and the code is wrong. -/
theorem claim_C9 (s : Settings) :
    get_cache_provider s = .error (.attributeError "Settings" "cache_compression_method") := by
  have hm : "cache_compression_method" ∉ Settings.attrNames := by decide
  unfold get_cache_provider
  split <;> simp [hm]

end GoBriefly
